import Mathlib

/-!
Verification of the dynamic carbon factor simulator of
`src/app.py` (classes `DynamicCarbonFactorSimulator` and
`CarbonFootprintCalculator`).

The Python code builds, at construction time, a pandas DataFrame with one
row per calendar date from 2024-01-01 to 2024-12-31 (a leap year, hence
366 rows) and three real-valued columns `low_confidence`,
`medium_confidence`, `high_confidence`, and serves point lookups
(`get_factor`), a classification function (`_get_carbon_level`) and an
annual mean (used by `calculate_scope2`).

Modelling choices:
* Calendar dates are embedded as civil day numbers (days since the Unix
  epoch 1970-01-01) computed by the standard civil-calendar algorithm;
  a pandas `Timestamp` is a day number together with a second-of-day.
* `np.random.seed(42)` followed by draws of `np.random.normal(0, s, n)`
  is modelled by a stream `z : ℕ → ℝ` of standard normal draws in the
  order the generator produces them: `np.random.normal(0, s, n)` consumes
  the next `n` draws of the stream and scales each by `s`.  The
  construction is parametric in the stream; the concrete seed-42 stream
  is embedded separately as a table of integers scaled by `10^9` for
  claims that need the realised values.
* Python floats are modelled by real numbers (the formulas involve
  `np.sin` and `np.pi`); purely structural computations (dates, parsing,
  classification thresholds) stay executable.
-/

/-! ## Civil calendar arithmetic -/

/-- Is `y` a leap year in the proleptic Gregorian calendar? -/
def isLeap (y : ℕ) : Bool := (y % 4 == 0 && y % 100 != 0) || (y % 400 == 0)

/-- Number of days of month `m` (1..12) of year `y`. -/
def daysInMonth (y m : ℕ) : ℕ :=
  if m = 2 then (if isLeap y then 29 else 28)
  else if m = 4 ∨ m = 6 ∨ m = 9 ∨ m = 11 then 30
  else 31

/-- Civil day number of the date `y-m-d`: the number of days since
1970-01-01 (Howard Hinnant's `days_from_civil` algorithm, here used for
years `1700 ≤ y ≤ 2200` so every intermediate quantity is non-negative). -/
def daysFromCivil (y m d : ℕ) : ℤ :=
  let yy : ℤ := if m ≤ 2 then (y:ℤ) - 1 else (y:ℤ)
  let era : ℤ := yy / 400
  let yoe : ℤ := yy - era * 400
  let mp : ℤ := if 2 < m then (m:ℤ) - 3 else (m:ℤ) + 9
  let doy : ℤ := (153 * mp + 2) / 5 + (d:ℤ) - 1
  let doe : ℤ := yoe * 365 + yoe / 4 - yoe / 100 + doy
  era * 146097 + doe - 719468

/-- The calendar year that the civil day number `z` falls in
(Howard Hinnant's `civil_from_days` algorithm, year component). -/
def yearOfDay (z : ℤ) : ℤ :=
  let za : ℤ := z + 719468
  let era : ℤ := za / 146097
  let doe : ℤ := za - era * 146097
  let yoe : ℤ := (doe - doe / 1460 + doe / 36524 - doe / 146096) / 365
  let y : ℤ := yoe + era * 400
  let doy : ℤ := doe - (365 * yoe + yoe / 4 - yoe / 100)
  let mp : ℤ := (5 * doy + 2) / 153
  let m : ℤ := if mp < 10 then mp + 3 else mp - 9
  if m ≤ 2 then y + 1 else y

/-- Day of year of the civil day number `z` (1 for January 1st), as
computed by pandas' `DatetimeIndex.dayofyear`. -/
def pandasDayOfYear (z : ℤ) : ℤ :=
  z - daysFromCivil (yearOfDay z).toNat 1 1 + 1

/-- Day of week of the civil day number `z` in Python's convention
(`Timestamp.weekday()`): 0 = Monday, ..., 6 = Sunday.  1970-01-01 was a
Thursday, hence the offset 3. -/
def pdWeekday (z : ℤ) : ℤ := (z + 3) % 7

/-- Day of year computed directly from the calendar components: days of
the earlier months of the same year, plus the day of month.  This is the
specification-level notion used to state the seasonal formula. -/
def dayOfYearCivil (y m d : ℕ) : ℤ :=
  ((List.range (m - 1)).foldl (fun acc k => acc + daysInMonth y (k + 1)) 0 : ℕ) + (d:ℤ)

/-- Validity of calendar components for the modelled date subset
(pandas `Timestamp` only covers years 1677..2262; we model the
comfortable sub-range 1700..2200). -/
def isValidDate (y m d : ℕ) : Bool :=
  1700 ≤ y && y ≤ 2200 && 1 ≤ m && m ≤ 12 && 1 ≤ d && d ≤ daysInMonth y m

/-! ## Timestamps and parsing

`pd.to_datetime` accepts many formats; the claims only exercise ISO
dates with an optional time of day, so the model parses exactly the
formats `YYYY-MM-DD`, `YYYY-MM-DD HH:MM` and `YYYY-MM-DD HH:MM:SS` and
returns `none` on everything else (which the Python code turns into the
fallback value). -/

/-- A pandas `Timestamp`, at second granularity: a civil day number and
a second of day. -/
structure Timestamp where
  day : ℤ
  sec : ℕ
deriving DecidableEq, Repr

/-- Value of a decimal digit character. -/
def digitVal (c : Char) : Option ℕ :=
  if c.isDigit then some (c.toNat - 48) else none

/-- Two-digit decimal number. -/
def parseNat2 (a b : Char) : Option ℕ := do
  let x ← digitVal a
  let y ← digitVal b
  pure (10 * x + y)

/-- Four-digit decimal number. -/
def parseNat4 (a b c d : Char) : Option ℕ := do
  let x ← parseNat2 a b
  let y ← parseNat2 c d
  pure (100 * x + y)

/-- Parse the 10-character date part `YYYY-MM-DD`. -/
def parseDatePart (cs : List Char) : Option (ℕ × ℕ × ℕ) :=
  match cs with
  | [a, b, c, d, e, f, g, h, i, j] =>
    if e = '-' ∧ h = '-' then do
      let y ← parseNat4 a b c d
      let mo ← parseNat2 f g
      let dy ← parseNat2 i j
      pure (y, mo, dy)
    else none
  | _ => none

/-- Parse the optional time part: empty, ` HH:MM`, or ` HH:MM:SS`;
returns the second of day. -/
def parseTimePart (cs : List Char) : Option ℕ :=
  match cs with
  | [] => some 0
  | [sp, h1, h2, c1, m1, m2] =>
    if sp = ' ' ∧ c1 = ':' then do
      let h ← parseNat2 h1 h2
      let mi ← parseNat2 m1 m2
      if h < 24 ∧ mi < 60 then pure (3600 * h + 60 * mi) else none
    else none
  | [sp, h1, h2, c1, m1, m2, c2, s1, s2] =>
    if sp = ' ' ∧ c1 = ':' ∧ c2 = ':' then do
      let h ← parseNat2 h1 h2
      let mi ← parseNat2 m1 m2
      let se ← parseNat2 s1 s2
      if h < 24 ∧ mi < 60 ∧ se < 60 then pure (3600 * h + 60 * mi + se) else none
    else none
  | _ => none

/-- Model of `pd.to_datetime` on the string formats the claims exercise:
`some` timestamp on a valid `YYYY-MM-DD[ HH:MM[:SS]]` string, `none`
(an exception in Python) otherwise. -/
def parseTimestamp (s : String) : Option Timestamp := do
  let cs := s.toList
  let (y, mo, dy) ← parseDatePart (cs.take 10)
  let sec ← parseTimePart (cs.drop 10)
  if isValidDate y mo dy then pure ⟨daysFromCivil y mo dy, sec⟩ else none

/-! ## The simulated series (`DynamicCarbonFactorSimulator`) -/

/-- First day of the simulated range: `pd.date_range` start
`2024-01-01` (src/app.py line 85). -/
def simStart : ℤ := daysFromCivil 2024 1 1

/-- Last day of the simulated range: `2024-12-31`. -/
def simEnd : ℤ := daysFromCivil 2024 12 31

/-- Number of days produced by
`pd.date_range(start='2024-01-01', end='2024-12-31', freq='D')`
(inclusive daily range). -/
def numDays : ℕ := (simEnd - simStart + 1).toNat

/-- Seasonal component (src/app.py line 88):
`0.15 * np.sin(2 * np.pi * dates.dayofyear / 365 - np.pi/2)` for the
`i`-th date of the range. -/
noncomputable def seasonal (i : ℕ) : ℝ :=
  0.15 * Real.sin (2 * Real.pi * (pandasDayOfYear (simStart + i) : ℝ) / 365 - Real.pi / 2)

/-- Weekday effect (src/app.py line 91):
`np.where(dates.weekday < 5, 0.05, -0.03)` for the `i`-th date. -/
noncomputable def weekday_effect (i : ℕ) : ℝ :=
  if pdWeekday (simStart + i) < 5 then 0.05 else -0.03

/-- One row of the `daily_factors` DataFrame. -/
structure DailyRecord where
  date : Timestamp
  low_confidence : ℝ
  medium_confidence : ℝ
  high_confidence : ℝ

/-- The `i`-th row of the DataFrame built at src/app.py lines 94-99,
parametric in the stream `z` of standard normal draws.  The three
`np.random.normal(0, s, len(dates))` calls are evaluated in the order
the dict literal is written (low, then medium, then high), so the low
column consumes draws `0..numDays-1`, the medium column draws
`numDays..2*numDays-1`, and the high column draws
`2*numDays..3*numDays-1`, each scaled by its standard deviation. -/
noncomputable def mkRecord (z : ℕ → ℝ) (i : ℕ) : DailyRecord where
  date := ⟨simStart + i, 0⟩
  low_confidence := 0.85 * (1 + seasonal i + 0.12 * z i)
  medium_confidence :=
    0.80 * (1 + 0.8 * seasonal i + 0.5 * weekday_effect i + 0.08 * z (numDays + i))
  high_confidence :=
    0.78 * (1 + 0.6 * seasonal i + 0.3 * weekday_effect i + 0.05 * z (2 * numDays + i))

/-- The full DataFrame `daily_factors` (src/app.py `_generate_daily_factors`),
date-indexed: one record per day of the range, in ascending date order,
parametric in the standard normal stream `z`. -/
noncomputable def daily_factors (z : ℕ → ℝ) : List DailyRecord :=
  (List.range numDays).map (mkRecord z)

/-- Model of `np.random.seed(42)` followed by the generation:
`rng seed` is the standard normal stream obtained after seeding the
global numpy `RandomState` with `seed`, and `state0` is the draw stream
of whatever global generator state existed beforehand.  The method
(src/app.py lines 82-101) seeds with the fixed constant 42 first, so the
prior state is discarded. -/
noncomputable def _generate_daily_factors (rng : ℕ → ℕ → ℝ) (state0 : ℕ → ℝ) :
    List DailyRecord :=
  daily_factors (rng 42)

/-- Exact-match row lookup in the date index, modelling
`self.daily_factors.loc[date, column]`: a scalar `Timestamp` key must
match an index entry exactly, otherwise pandas raises `KeyError`. -/
noncomputable def lookupRow (z : ℕ → ℝ) (t : Timestamp) : Option DailyRecord :=
  (daily_factors z).find? (fun r => decide (r.date = t))

/-- The part of `get_factor` after the date has been parsed: column
selection (src/app.py lines 107-112) with any lookup failure turned
into the fallback `0.8` by the surrounding `try/except`. -/
noncomputable def get_factor_at (z : ℕ → ℝ) (t : Timestamp) (confidence_level : String) : ℝ :=
  match lookupRow z t with
  | none => 0.8
  | some row =>
    if confidence_level = "low" then row.low_confidence
    else if confidence_level = "high" then row.high_confidence
    else row.medium_confidence

/-- `DynamicCarbonFactorSimulator.get_factor` (src/app.py lines 103-114):
parse the date string, look the date up, select the column; any failure
(unparseable string, missing date) yields the constant `0.8`. -/
noncomputable def get_factor (z : ℕ → ℝ) (date_str confidence_level : String) : ℝ :=
  match parseTimestamp date_str with
  | none => 0.8
  | some t => get_factor_at z t confidence_level

/-- `CarbonFootprintCalculator._get_carbon_level` (src/app.py lines
261-272).  The five labels are, in the spec's English naming:
`非常清洁` = very_clean, `清洁` = clean, `中等` = moderate,
`较高` = elevated, `很高` = high.  Python floats are modelled by `ℚ` to
keep the thresholds decidable. -/
def _get_carbon_level (factor : ℚ) : String :=
  if factor < 0.7 then "非常清洁"
  else if factor < 0.8 then "清洁"
  else if factor < 0.9 then "中等"
  else if factor < 1.0 then "较高"
  else "很高"

/-- Modelled from the spec: `DynamicCarbonFactorSimulator.get_yearly_factors`
is called at src/app.py line 160 but not defined anywhere under `src/`
(the repository ships a second near-duplicate copy of the app that is
not in `src/`).  Per §4.1 and §6 of the spec, `yearlyAverage` works on
"the named band across every record in the series", with the same
unrecognized-level fallback to medium as `get_factor`; this definition
returns that band's column, which the caller then averages. -/
noncomputable def get_yearly_factors (z : ℕ → ℝ) (confidence_level : String) : List ℝ :=
  if confidence_level = "low" then (daily_factors z).map (fun r => r.low_confidence)
  else if confidence_level = "high" then (daily_factors z).map (fun r => r.high_confidence)
  else (daily_factors z).map (fun r => r.medium_confidence)

/-- The annual average factor as computed by `calculate_scope2`
(src/app.py lines 160-161): `avg_factor = float(factors.mean())`, the
arithmetic mean of the column returned by `get_yearly_factors`. -/
noncomputable def yearly_average_factor (z : ℕ → ℝ) (confidence_level : String) : ℝ :=
  (get_yearly_factors z confidence_level).sum / (get_yearly_factors z confidence_level).length

/-! ### Bands, helper streams, and the realised seed-42 stream -/

/-- The three confidence bands, in the column order of the DataFrame. -/
inductive Band
  | low
  | medium
  | high
deriving DecidableEq, Repr

/-- Position of a band in the order low → medium → high. -/
def Band.rank : Band → ℕ
  | .low => 0
  | .medium => 1
  | .high => 2

/-- The band-`b` value of a record. -/
def DailyRecord.band (r : DailyRecord) : Band → ℝ
  | .low => r.low_confidence
  | .medium => r.medium_confidence
  | .high => r.high_confidence

/-- The column `get_factor` selects for a given confidence-level string
(src/app.py lines 107-112): `low` and `high` are recognized, everything
else falls back to the medium column. -/
def bandOfLevel (confidence_level : String) : Band :=
  if confidence_level = "low" then .low
  else if confidence_level = "high" then .high
  else .medium

/-- All-zeros standard-normal stream, used to instantiate witnesses. -/
noncomputable def constStream : ℕ → ℝ := fun _ => 0

/-- Stream whose `k`-th draw is the number `k`, used to tell draw
positions apart. -/
noncomputable def natStream : ℕ → ℝ := fun k => (k : ℝ)

/-- Stream that differs from `constStream` exactly on the first hundred
draws. -/
noncomputable def spikeStream : ℕ → ℝ := fun k => if k < 100 then 1 else 0

set_option maxHeartbeats 2000000 in
/-- The first `3 * 366 = 1098` draws of the standard normal stream that
numpy's legacy global `RandomState` produces after `np.random.seed(42)`
(Mersenne Twister MT19937 seeded with 42, Gaussian samples by the polar
method with the usual one-sample cache), scaled by `10^9` and rounded to
the nearest integer.  `np.random.normal(0, s, n)` returns these draws
multiplied by `s`.  The first two entries are the well-known seed-42
values `0.4967141530112327` and `-0.13826430117118466`.  The claims
below only need every draw to lie above `-6` (the realised minimum is
`-3.2412673...`), so the `10^-9` rounding is irrelevant. -/
def zScaled : List ℤ := [
  496714153, -138264301, 647688538, 1523029856, -234153375, -234136957, 1579212816, 767434729, 
  -469474386, 542560044, -463417693, -465729754, 241962272, -1913280245, -1724917833, -562287529, 
  -1012831120, 314247333, -908024076, -1412303701, 1465648769, -225776300, 67528205, -1424748186, 
  -544382725, 110922590, -1150993577, 375698018, -600638690, -291693750, -601706612, 1852278185, 
  -13497225, -1057710929, 822544912, -1220843650, 208863595, -1959670124, -1328186049, 196861236, 
  738466580, 171368281, -115648282, -301103696, -1478521990, -719844208, -460638771, 1057122226, 
  343618290, -1763040155, 324083969, -385082280, -676922000, 611676289, 1030999522, 931280119, 
  -839217523, -309212376, 331263431, 975545127, -479174238, -185658977, -1106334974, -1196206624, 
  812525822, 1356240029, -72010122, 1003532898, 361636025, -645119755, 361395606, 1538036566, 
  -35826039, 1564643656, -2619745104, 821902504, 87047068, -299007350, 91760777, -1987568915, 
  -219671888, 357112572, 1477894045, -518270218, -808493603, -501757044, 915402118, 328751110, 
  -529760204, 513267433, 97077549, 968644991, -702053094, -327662147, -392108153, -1463514948, 
  296120277, 261055272, 5113457, -234587133, -1415370742, -420645323, -342714517, -802277269, 
  -161285712, 404050857, 1886185901, 174577813, 257550391, -74445916, -1918771215, -26513875, 
  60230210, 2463242112, -192360965, 301547342, -34711770, -1168678038, 1142822815, 751933033, 
  791031947, -909387455, 1402794311, -1401851063, 586857094, 2190455626, -990536325, -566297730, 
  99651365, -503475654, -1550663431, 68562975, -1062303714, 473592431, -919424234, 1549934405, 
  -783253292, -322061516, 813517217, -1230864316, 227459935, 1307142754, -1607483235, 184633859, 
  259882794, 781822872, -1236950711, -1320456613, 521941566, 296984673, 250492850, 346448209, 
  -680024722, 232253697, 293072473, -714351418, 1865774511, 473832921, -1191303497, 656553609, 
  -974681670, 787084604, 1158595579, -820682318, 963376129, 412780927, 822060160, 1896792983, 
  -245388116, -753736164, -889514430, -815810285, -77101709, 341151975, 276690799, 827183249, 
  13001892, 1453534077, -264656833, 2720169167, 625667348, -857157556, -1070892498, 482472415, 
  -223462785, 714000494, 473237625, -72828913, -846793718, -1514847225, -446514952, 856398794, 
  214093744, -1245738779, 173180926, 385317380, -883857436, 153725106, 58208718, -1142970298, 
  357787360, 560784526, 1083051243, 1053802052, -1377669368, -937825040, 515035267, 513785951, 
  515047686, 3852731491, 570890511, 1135565640, 954001763, 651391251, -315269245, 758969220, 
  -772825215, -236818607, -485363548, 81874139, 2314658567, -1867265193, 686260190, -1612715871, 
  -471931866, 1088950597, 64280019, -1077744778, -715303709, 679597749, -730366632, 216458590, 
  45571840, -651600348, 2143944089, 633919022, -2025142587, 186454315, -661786465, 852433335, 
  -792520738, -114736441, 504987279, 865755194, -1200296407, -334501236, -474945311, -653329233, 
  1765454240, 404981711, -1260883954, 917861947, 2122156197, 1032465261, -1519369966, -484234073, 
  1266911149, -707669466, 443819428, 774634053, -926930472, -59525356, -3241267340, -1024387641, 
  -252568151, -1247783182, 1632411304, -1430141378, -440044487, 130740577, 1441273289, 
  -1435862151, 1163163752, 10233061, -981508651, 462103474, 199059696, -600216877, 69802085, 
  -385313597, 113517345, 662130675, 1586016816, -1237815499, 2133033375, -1952087800, -151785095, 
  588317206, 280991868, -622699520, -208122250, -493000935, -589364757, 849602097, 357015486, 
  -692909595, 899599875, 307299521, 812862119, 629628842, -828995011, -560181040, 747293605, 
  610370265, -20901594, 117327383, 1277664896, -591571389, 547097381, -202192652, -217681203, 
  1098776852, 825416349, 813509636, 1305478807, 21003842, 681952971, -310266757, 324166352, 
  -130143054, 96995965, 595157025, -818220683, 2092387276, -1006017381, -1214188613, 1158110874, 
  791662694, 624119817, 628345509, -12246773, -897254371, 75804558, -677161712, 975119733, 
  -147057382, -825497197, -321385842, 412931454, -563724553, -822220396, 243687211, 244966571, 
  -506943175, -471038306, 232049937, -1448084341, -1407463774, -718444221, -213447152, 310907566, 
  1475356217, 857659623, -159938530, -19016208, -1002529365, -18513136, -288658639, 322718560, 
  -827230944, 519346514, 1532738913, -108760148, 401711722, 690143992, -401220472, 224092482, 
  12592401, 97676099, -773009784, 24510174, 497998291, 1451143608, 959270826, 2153182458, 
  -767347563, 872320637, 183342006, 2189802933, -808298285, -839721842, -599392645, -2123895724, 
  -525755022, -759132662, 150393786, 341755976, 1876170839, 950423838, -576903656, -898414671, 
  491919172, -1320233207, 1831458766, 1179440121, -469175652, -1713134529, 1353872374, 
  -114539845, 1237816312, -1594427659, -599375023, 5243700, 46980594, -450065471, 622849932, 
  -1067620429, -142379485, 120295632, 514438834, 711614878, -1124642092, -1534114171, 1277676822, 
  332314012, -748486537, 1551151976, 115674634, 1179297184, 67518481, 2060747925, 1755340842, 
  -248964148, 971570951, 645375950, 1368631558, -964923461, 686051460, 1058424487, -1758739486, 
  -1183258513, -2039232178, -269406834, 717542256, 1502357052, 74094780, 1628615546, -1380101458, 
  -1703382439, -55547699, 384065449, -32694748, -2067442100, -89120040, -1304469501, 669672549, 
  366598246, -939879786, -513866917, -1059213522, -62679097, 955142321, -985726046, 504046516, 
  -530257618, -792872832, -107030360, -1035242322, -553649305, -1197877893, 1964725133, 35263552, 
  -699725508, 213979911, -112328050, -220969600, 614166700, 757507710, -530501148, -575818241, 
  -275051697, -2301921165, -1515191062, 1366874267, 1644967714, -249036040, 576556963, 311250155, 
  3078880808, 1119574911, -127917591, -955540441, -1606446320, 203463636, -756350745, 
  -1422253710, -646572884, -1081548004, 1687141635, 881639757, -7972641, 1479944139, 77368308, 
  -861284201, 1523124077, 538910044, -1037246154, -190338678, -875618253, -1382799731, 926177548, 
  1909416640, -1398567574, 562969237, -650642569, -487125384, -592393924, -863990770, 48521628, 
  -830950116, 270456826, -50238109, -238948047, -907563662, -576771331, 755391226, 500917188, 
  -977555245, 99332305, 751387123, -1669405281, 543360192, -662623759, 570598669, -763259157, 
  -1804882101, -1627542438, 48084947, 259722502, -904316625, 638592459, -1661520062, -66079799, 
  -1211016200, -651836108, 47398671, -860413365, -384555544, 1006292809, -576891870, 835692112, 
  -1129706855, 529804178, 1441568621, -2471644500, -796895255, 577072127, -203045386, 371145873, 
  -603985187, 86589787, -155677235, 1167782062, 254420843, 337602662, -411876966, -487606224, 
  -432558188, 394452142, -420984481, 289774857, 2075400799, 871124703, -326023532, 1201213922, 
  -408075373, -2038124535, -1008086311, -1870791921, -351513484, 18418379, 1676437312, 326927374, 
  -219100529, 829405581, -2211135309, 235614558, 770865194, -1478586246, 1143754043, 338496407, 
  -415287914, 632781866, 2270692858, 181866255, 248220586, -459360900, -849844369, 830335817, 
  -856083826, 71566237, -477657447, 478979826, 333662105, 1037539944, -510016399, -269874935, 
  -978763716, -444293260, 377300493, 756988617, -922165324, 869605920, 1355637859, 413434903, 
  1876795813, -773789199, -1244654703, -1778720249, 1496044311, 654365656, -55584671, 279968626, 
  -1125489047, 2445751980, 129221182, 109394795, 725766624, 481009232, 223884024, -790474455, 
  471468357, 1882024496, 1345420046, 1593186627, -511215676, -989604820, -125786920, 55724912, 
  1094191518, -1692464630, 1529550319, -158007899, -426881070, -1012104375, -1654856672, 
  823170584, 73317967, -1289960900, -1295078772, -335784699, 1669021525, -259591351, -1503142953, 
  -245743064, -272723570, -2696886643, -54294867, -230934530, 696206365, 1848956095, 1126565030, 
  -268888691, -1106525909, 2573359803, 59218434, 13929292, -24125087, 198084761, -144360412, 
  -573662007, -546858941, -32753270, -543424771, -712845783, 106430228, -254977217, 1503992989, 
  -2650969808, 1091506852, 1246085192, -2073390232, -342687594, -371440866, -1407511695, 
  -777816688, -1110575845, 1752270443, 935678393, 1271555095, 721672064, -1129051771, -524520266, 
  489374561, -1222127809, 712998430, -240325398, -374820808, 710959968, 444263311, -360966166, 
  1159329803, -1081063328, 615935607, 593101258, -309546439, 326133022, -1251113576, 924027019, 
  -184902136, -522723021, 1049009226, -704343691, -1408461296, -1556629174, 606009951, 
  -1280429352, 1754794182, -2081929408, 1696456368, 211017467, -96713112, -544919087, 399136114, 
  -37634702, 1103301882, 114227649, 150301761, -363612212, -56945624, 307801769, -1710168393, 
  -1348185422, 743264094, 170865438, -183983336, 18433933, 347581705, -539759680, -778304725, 
  195845255, -978372778, 408252756, -1702583604, 1029155637, 472597482, 256029734, 982690984, 
  1665474444, 1014370065, -1840874231, -1279576967, -624818578, 26091050, 517659020, -725743813, 
  186766764, -755382932, -611517803, -1406661097, -923233246, -1351684606, -975873253, 
  1053641797, -949398889, 2632382065, 493317901, 184836124, -858357780, 700309879, -575637826, 
  122009815, 2560084538, -96059900, 1149273326, -703176425, -34988490, 1770800636, -626967058, 
  1812448558, 707751935, -562466776, 632407739, 972554450, 621809962, -1570224720, -727137176, 
  -247518636, -74433429, 620672098, 177701001, -1335344359, 380197851, 610585745, 559790448, 
  1080780726, 833922155, 459180079, -70165711, -1660960934, 429618219, 207687687, 271578837, 
  -1276748576, -1081056540, 1053152853, -39555154, 681500697, 28318376, 29756139, 938283806, 
  -516044728, 96120777, -462275289, -434496227, -309172123, 222133772, -478748622, 1255756126, 
  -894607302, -186871644, -439731058, 1446977884, 196554777, 1031844539, -1485560373, 267050266, 
  889630796, 82283989, 1065480375, -517288450, 1409347440, 2298898124, -362838560, -445502521, 
  1453384477, 1579572146, -522860027, -420186817, -281784609, -1344450511, -918651946, 
  -1004140767, -767797565, -34684887, 234214733, 1550500493, -998354041, 984322398, -213988844, 
  -49463710, 674819492, -1122722022, 382409746, 166452208, 492451264, 289168644, 2455300140, 
  -637739984, -530996955, -623140526, -555477119, -637387127, 1189016531, 1420504248, -570746294, 
  -832355573, 471415556, -552223044, 632931818, 202923021, -1515744115, 1547505201, 1795877673, 
  -612788690, -387701560, 285865391, 334456790, 658544273, 2010204539, -176947227, -798297245, 
  -1379319228, -730930040, -33126973, 1794557864, -517611299, 223787952, -16422896, 1188393273, 
  2526932426, -530868773, -489439443, 1044160877, 681891490, 1846707326, 583928185, -359292091, 
  590654831, 1108703581, 820482181, 507274031, 1066674690, 1169295590, 1382158991, 648709888, 
  -167118080, 146713686, 1206508967, -816935671, 368673309, -393338812, 28744823, 1278451863, 
  191099068, 46436548, -1359856141, 746253566, 645484181, 2163254723, -307778235, 219150328, 
  249383684, 1577453280, -95295532, 279021526, 607896510, 186609123, -446433615, 194089993, 
  1073631750, -1026515299, 132969674, -700120815, 1195046629, -1523186905, -558921847, 377211875, 
  1565524029, -65750261, -555199527, 1881157069, -1448013900, -2198805957, 440014450, -502054224, 
  -1021232817, 708356447, 243800714, -564078631, -1280304399, 872457328, 650201178, -99175864, 
  1846636996, -1070084766, -1525525171, -691908070, -45586016, 243339449, -241236058, 352055397, 
  -1251539424, 1443764604, -82151178, 1117295832, 342725346, 456753219, 569767280, 447708560, 
  642722760, 1329152530, 196521170, 709003758, -89735694, 1440117215, -676392302, 1800940433, 
  -40157951, -1430775102, 128104415, -681051657, 840643549, -652623979, -446183433, -1889540731, 
  -452306319, -2423879327, -1583902823, 760414656, 785800159, 425457562, -966976143, -47711356, 
  -3602539, -1158364689, 1503398302, 877362291, -220964174, 26885839, 208382808, -2041734868, 
  -247177383, -681984248, -1001620010, -281100293, 1797686527, 640842861, -571178990, 572582781, 
  1399355437, 924633683, 59630370, -646936778, 698223314, 393485385, 895193220, 635171802, 
  1049552715, -535235212, 1317394066, 197599605, 2075260873, -689187818, 1735963803, 197910783, 
  -651418004, -483885834, -320347308, 424165946, 522835488, -573700004, -24354592, 2142270359, 
  1727543170, 436323670, 38003478, 120031327, 613517973, -1022792565, -257376537, -1668584074, 
  399223123, 647195940, -483186462, 1573986763, -1225765663, -1464374880, 224451819, 1047098303, 
  1683927691, -458884263, 1078680833, -38508470, -172627300, 883659937, 652322878, -1576392157, 
  1476540350, 1380091354, -625562702, 395803533, 494030186, 260673766, -550305154, -671623368, 
  -25554071, 1172729019, 543600155, -370614332, 771698711, -2848542621, 1148765700, -1739713779, 
  -362440941, -1119669895, -1294681476, 1160826787, -467701201, 346503882, -46920579, 477040827, 
  76821891, -1282992224, 996266819, -493756583, -1556581899, -428115161, 1500759791, 850221742, 
  -348652134, -349257704, -321635051, 2076747984, 381935452, 430041647, 1030283454, 238789159, 
  -259042146, -196349849, -71601259, -37222237, 727629544, 51945886, 732640077, -80716580, 
  78635190, -1998200685]

/-- The realised standard normal stream of the fixed seed 42, as real
numbers. -/
noncomputable def seedStream42 : ℕ → ℝ := fun k => ((zScaled.getD k 0 : ℤ) : ℝ) / 1000000000

/-- Placeholder record used as the `getD` default when stating lookups
by position. -/
noncomputable def defaultRecord : DailyRecord := ⟨⟨0, 0⟩, 0, 0, 0⟩

/-! ### Basic facts about the range -/

theorem numDays_eq : numDays = 366 := by decide

theorem simStart_eq : simStart = 19723 := by decide

example : isLeap 2024 = true := by decide
example : daysFromCivil 1970 1 1 = 0 := by decide
example : daysFromCivil 2024 6 15 = 19723 + 166 := by decide
example : parseTimestamp "2024-06-15" = some ⟨19889, 0⟩ := by decide
example : parseTimestamp "2024-06-15 12:00" = some ⟨19889, 43200⟩ := by decide
example : parseTimestamp "not-a-date" = none := by decide
example : parseTimestamp "2030-01-01" = some ⟨21915, 0⟩ := by decide

/-! ### Lookup characterization -/

/-- `find?` over `List.range n` returns the least index satisfying the
predicate. -/
theorem find?_range_eq_some (p : ℕ → Bool) (j : ℕ)
    (hpj : p j = true) (hmin : ∀ i < j, p i = false) :
    ∀ n, j < n → (List.range n).find? p = some j := by
  intro n
  induction n with
  | zero => omega
  | succ n ih =>
    intro hj
    rw [List.range_succ, List.find?_append]
    rcases Nat.lt_or_ge j n with h | h
    · rw [ih h]; rfl
    · have hj' : j = n := by omega
      subst hj'
      have hnone : (List.range j).find? p = none := by
        rw [List.find?_eq_none]
        intro i hi
        simp only [List.mem_range] at hi
        simp [hmin i hi]
      rw [hnone]
      simp [List.find?, hpj]

/-- The date of the `i`-th generated record. -/
theorem mkRecord_date (z : ℕ → ℝ) (i : ℕ) : (mkRecord z i).date = ⟨simStart + i, 0⟩ := rfl

/-- A timestamp whose second-of-day is nonzero or whose day falls outside
the generated range matches no row: `.loc` raises `KeyError`. -/
theorem lookupRow_eq_none (z : ℕ → ℝ) (t : Timestamp)
    (h : t.sec ≠ 0 ∨ t.day < simStart ∨ simStart + numDays ≤ t.day) :
    lookupRow z t = none := by
  obtain ⟨td, ts⟩ := t
  dsimp only at h
  unfold lookupRow
  rw [List.find?_eq_none]
  intro r hr
  simp only [daily_factors, List.mem_map, List.mem_range] at hr
  obtain ⟨i, hi, rfl⟩ := hr
  simp only [mkRecord_date, decide_eq_true_eq, Timestamp.mk.injEq]
  intro he
  obtain ⟨hd, hs⟩ := he
  omega

/-- A midnight timestamp inside the generated range finds exactly the
record of its day. -/
theorem lookupRow_eq_some (z : ℕ → ℝ) (i : ℕ) (hi : i < numDays) :
    lookupRow z ⟨simStart + i, 0⟩ = some (mkRecord z i) := by
  unfold lookupRow daily_factors
  rw [List.find?_map]
  have hfind : (List.range numDays).find?
      ((fun r => decide (r.date = ⟨simStart + i, 0⟩)) ∘ mkRecord z) = some i := by
    apply find?_range_eq_some _ i ?_ ?_ numDays hi
    · simp [mkRecord_date]
    · intro k hk
      simp only [Function.comp_apply, mkRecord_date, decide_eq_false_iff_not,
        Timestamp.mk.injEq]
      omega
  rw [hfind]
  rfl

/-- The dates present in the generated series are exactly the midnights
of the configured range. -/
theorem mem_dates_iff (z : ℕ → ℝ) (t : Timestamp) :
    t ∈ (daily_factors z).map (fun r => r.date) ↔
      simStart ≤ t.day ∧ t.day < simStart + numDays ∧ t.sec = 0 := by
  obtain ⟨td, ts⟩ := t
  simp only [daily_factors, List.map_map, List.mem_map, List.mem_range,
    Function.comp_apply, mkRecord_date, Timestamp.mk.injEq]
  constructor
  · rintro ⟨i, hi, hd, hs⟩
    exact ⟨by omega, by omega, by omega⟩
  · rintro ⟨h1, h2, h3⟩
    exact ⟨(td - simStart).toNat, by omega, by omega, by omega⟩

/-! ## Claims -/

/-- Claim C4: for every input string that does not parse as a date, and
for every date that parses but lies outside the generated range,
`get_factor` returns exactly the fallback constant `0.8` and never
raises; in particular on `"not-a-date"` and `"2030-01-01"`. -/
theorem C4_fallback_on_bad_dates :
    (∀ (z : ℕ → ℝ) (s lvl : String), parseTimestamp s = none →
      get_factor z s lvl = 0.8) ∧
    (∀ (z : ℕ → ℝ) (s lvl : String) (t : Timestamp), parseTimestamp s = some t →
      t.day < simStart ∨ simStart + numDays ≤ t.day → get_factor z s lvl = 0.8) ∧
    (∀ (z : ℕ → ℝ) (lvl : String), get_factor z "not-a-date" lvl = 0.8) ∧
    (∀ (z : ℕ → ℝ) (lvl : String), get_factor z "2030-01-01" lvl = 0.8) := by
  have hout : ∀ (z : ℕ → ℝ) (s lvl : String) (t : Timestamp), parseTimestamp s = some t →
      t.day < simStart ∨ simStart + numDays ≤ t.day → get_factor z s lvl = 0.8 := by
    intro z s lvl t hp hr
    have hn := lookupRow_eq_none z t (Or.inr hr)
    simp [get_factor, get_factor_at, hp, hn]
  refine ⟨?_, hout, ?_, ?_⟩
  · intro z s lvl h
    simp [get_factor, h]
  · intro z lvl
    have h : parseTimestamp "not-a-date" = none := by decide
    simp [get_factor, h]
  · intro z lvl
    exact hout z _ lvl ⟨21915, 0⟩ (by decide) (by decide)

theorem C4_fallback_on_bad_dates_witness :
    parseTimestamp "99/99" = none ∧ get_factor constStream "99/99" "medium" = 0.8 :=
  ⟨by decide, C4_fallback_on_bad_dates.1 constStream "99/99" "medium" (by decide)⟩

/-- Claim C5: `_get_carbon_level` maps a factor value to the five ordered
labels with half-open boundaries, inclusive below and exclusive above:
`<0.7 →` very_clean (`非常清洁`), `[0.7,0.8) →` clean (`清洁`),
`[0.8,0.9) →` moderate (`中等`), `[0.9,1.0) →` elevated (`较高`),
`≥1.0 →` high (`很高`); with the claimed boundary examples. -/
theorem C5_level_label_boundaries :
    (∀ v : ℚ, v < 0.7 → _get_carbon_level v = "非常清洁") ∧
    (∀ v : ℚ, 0.7 ≤ v → v < 0.8 → _get_carbon_level v = "清洁") ∧
    (∀ v : ℚ, 0.8 ≤ v → v < 0.9 → _get_carbon_level v = "中等") ∧
    (∀ v : ℚ, 0.9 ≤ v → v < 1.0 → _get_carbon_level v = "较高") ∧
    (∀ v : ℚ, 1.0 ≤ v → _get_carbon_level v = "很高") ∧
    _get_carbon_level 0.6999 = "非常清洁" ∧
    _get_carbon_level 0.7 = "清洁" ∧
    _get_carbon_level 0.7999 = "清洁" ∧
    _get_carbon_level 0.8 = "中等" ∧
    _get_carbon_level 0.9 = "较高" ∧
    _get_carbon_level 1.0 = "很高" ∧
    _get_carbon_level 1.5 = "很高" := by
  refine ⟨?_, ?_, ?_, ?_, ?_,
    by unfold _get_carbon_level; norm_num, by unfold _get_carbon_level; norm_num,
    by unfold _get_carbon_level; norm_num, by unfold _get_carbon_level; norm_num,
    by unfold _get_carbon_level; norm_num, by unfold _get_carbon_level; norm_num,
    by unfold _get_carbon_level; norm_num⟩
  · intro v h
    unfold _get_carbon_level
    rw [if_pos h]
  · intro v h1 h2
    unfold _get_carbon_level
    rw [if_neg (not_lt.mpr (by linarith)), if_pos h2]
  · intro v h1 h2
    unfold _get_carbon_level
    rw [if_neg (not_lt.mpr (by linarith)), if_neg (not_lt.mpr (by linarith)), if_pos h2]
  · intro v h1 h2
    unfold _get_carbon_level
    rw [if_neg (not_lt.mpr (by linarith)), if_neg (not_lt.mpr (by linarith)),
      if_neg (not_lt.mpr (by linarith)), if_pos h2]
  · intro v h1
    unfold _get_carbon_level
    rw [if_neg (not_lt.mpr (by linarith)), if_neg (not_lt.mpr (by linarith)),
      if_neg (not_lt.mpr (by linarith)), if_neg (not_lt.mpr (by linarith))]

theorem C5_level_label_boundaries_witness :
    (0.65 : ℚ) < 0.7 ∧ _get_carbon_level 0.65 = "非常清洁" :=
  ⟨by norm_num, C5_level_label_boundaries.1 0.65 (by norm_num)⟩

/-- Claim C9: for every date string and every confidence-level string
that is neither `"low"` nor `"high"` (including any unrecognized
string), `get_factor` behaves exactly like `get_factor` at `"medium"`. -/
theorem C9_unrecognized_level_falls_back_to_medium :
    ∀ (z : ℕ → ℝ) (s lvl : String), lvl ≠ "low" → lvl ≠ "high" →
      get_factor z s lvl = get_factor z s "medium" := by
  intro z s lvl h1 h2
  unfold get_factor
  cases parseTimestamp s with
  | none => rfl
  | some t =>
    dsimp only
    unfold get_factor_at
    cases lookupRow z t with
    | none => rfl
    | some row =>
      dsimp only
      rw [if_neg h1, if_neg h2, if_neg (by decide : ¬("medium" : String) = "low"),
        if_neg (by decide : ¬("medium" : String) = "high")]

theorem C9_unrecognized_level_falls_back_to_medium_witness :
    ("unknown_level" : String) ≠ "low" ∧ ("unknown_level" : String) ≠ "high" ∧
    get_factor constStream "2024-06-15" "unknown_level" =
      get_factor constStream "2024-06-15" "medium" :=
  ⟨by decide, by decide,
    C9_unrecognized_level_falls_back_to_medium constStream "2024-06-15" "unknown_level"
      (by decide) (by decide)⟩

/-- Claim C10: a string that parses to a timestamp whose calendar date
is inside the generated range but whose time of day is not midnight
misses the date index (exact-match lookup), so `get_factor` returns the
fallback `0.8` rather than the stored band value. -/
theorem C10_nonmidnight_falls_back :
    ∀ (z : ℕ → ℝ) (s lvl : String) (t : Timestamp), parseTimestamp s = some t →
      simStart ≤ t.day → t.day < simStart + numDays → t.sec ≠ 0 →
      get_factor z s lvl = 0.8 := by
  intro z s lvl t hp _ _ hs
  have hn := lookupRow_eq_none z t (Or.inl hs)
  simp [get_factor, get_factor_at, hp, hn]

/-- Claim C2, corrected.  The dict literal at src/app.py lines 94-99
evaluates its columns in order, and each `np.random.normal(0, s, len(dates))`
call consumes one draw per date at once; so the stream is consumed
band-major — all `numDays` low draws first, then all medium draws, then
all high draws — not date-major as the claim states.  The noise used for
band `b` on the `i`-th date is the `(numDays * rank b + i)`-th draw of
the stream: the value of band `b` at date `i` depends on the stream only
through that draw. -/
theorem C2_noise_consumed_band_major :
    ∀ (z z' : ℕ → ℝ) (b : Band) (i : ℕ),
      z (numDays * b.rank + i) = z' (numDays * b.rank + i) →
      (mkRecord z i).band b = (mkRecord z' i).band b := by
  intro z z' b i h
  cases b with
  | low =>
    simp only [Band.rank, Nat.mul_zero, Nat.zero_add] at h
    simp only [DailyRecord.band, mkRecord, h]
  | medium =>
    simp only [Band.rank, Nat.mul_one] at h
    simp only [DailyRecord.band, mkRecord, h]
  | high =>
    rw [show numDays * Band.high.rank + i = 2 * numDays + i by simp [Band.rank]; ring] at h
    simp only [DailyRecord.band, mkRecord, h]

theorem C2_noise_consumed_band_major_witness :
    constStream (numDays * Band.medium.rank + 2) =
      spikeStream (numDays * Band.medium.rank + 2) ∧
    (mkRecord constStream 2).band Band.medium = (mkRecord spikeStream 2).band Band.medium :=
  ⟨by norm_num [constStream, spikeStream, numDays_eq, Band.rank],
    C2_noise_consumed_band_major constStream spikeStream Band.medium 2
      (by norm_num [constStream, spikeStream, numDays_eq, Band.rank])⟩

/-- Claim C2 as stated is false: the noise draw used for the medium band
on the 0-th date is draw number `numDays + 0 = 366` of the stream, not
draw number `3*0 + rank(medium) = 1`.  On the stream whose `k`-th draw
is the number `k`, the generated medium value at date 0 differs from the
value the claimed indexing would give. -/
theorem C2_counterexample :
    ¬ ((mkRecord natStream 0).band Band.medium =
        0.80 * (1 + 0.8 * seasonal 0 + 0.5 * weekday_effect 0 +
          0.08 * natStream (3 * 0 + Band.medium.rank))) := by
  simp only [DailyRecord.band, mkRecord, natStream, numDays_eq, Band.rank]
  intro h
  push_cast at h
  linarith

/-- Claim C7: the generated series does not depend on the ambient global
generator state — `np.random.seed(42)` is called first, so two
independent constructions produce the identical series; in particular
the medium value for 2024-06-15 (the 166-th date of the range) is the
same in both. -/
theorem C7_generation_deterministic :
    ∀ (rng : ℕ → ℕ → ℝ) (state1 state2 : ℕ → ℝ),
      _generate_daily_factors rng state1 = _generate_daily_factors rng state2 ∧
      daysFromCivil 2024 6 15 = simStart + 166 ∧
      ((_generate_daily_factors rng state1).getD 166 defaultRecord).medium_confidence =
        ((_generate_daily_factors rng state2).getD 166 defaultRecord).medium_confidence := by
  intro rng s1 s2
  exact ⟨rfl, by decide, rfl⟩

theorem C10_nonmidnight_falls_back_witness :
    parseTimestamp "2024-06-15 12:00" = some ⟨19889, 43200⟩ ∧
    get_factor constStream "2024-06-15 12:00" "medium" = 0.8 :=
  ⟨by decide,
    C10_nonmidnight_falls_back constStream "2024-06-15 12:00" "medium" ⟨19889, 43200⟩
      (by decide) (by decide) (by decide) (by decide)⟩

/-! ### The realised stream is tame -/

set_option maxRecDepth 100000 in
set_option maxHeartbeats 2000000 in
/-- Every entry of the table lies within `[-6, 6] * 10^9`. -/
theorem zScaled_bounded :
    zScaled.all (fun v => decide (-6000000000 ≤ v ∧ v ≤ 6000000000)) = true := by decide

/-- Every draw of the realised seed-42 stream lies in `[-6, 6]` (the
default value `0` for indices past the table trivially does). -/
theorem seedStream42_bounded : ∀ k : ℕ, -6 ≤ seedStream42 k ∧ seedStream42 k ≤ 6 := by
  intro k
  unfold seedStream42
  rcases Nat.lt_or_ge k zScaled.length with hk | hk
  · have hmem : zScaled.getD k 0 ∈ zScaled := by
      rw [List.getD_eq_getElem zScaled 0 hk]
      exact List.getElem_mem hk
    have hb := (List.all_eq_true.mp zScaled_bounded) _ hmem
    rw [decide_eq_true_eq] at hb
    obtain ⟨h1, h2⟩ := hb
    have h1r : ((-6000000000 : ℤ) : ℝ) ≤ ((zScaled.getD k 0 : ℤ) : ℝ) := Int.cast_le.mpr h1
    have h2r : ((zScaled.getD k 0 : ℤ) : ℝ) ≤ ((6000000000 : ℤ) : ℝ) := Int.cast_le.mpr h2
    push_cast at h1r h2r
    constructor <;> [linarith; linarith]
  · rw [List.getD_eq_default _ _ hk]
    norm_num

/-- Claim C3: over the realised seed-42 noise stream, every band value of
every record of the generated series is non-negative.  (This is not a
consequence of the formulas alone — a standard normal draw below roughly
`-7.08` would make a low-band value negative — but the realised draws
all exceed `-3.25`, and `sin` is bounded by 1, leaving a wide margin.) -/
theorem C3_bands_nonneg :
    ∀ (b : Band) (r : DailyRecord), r ∈ daily_factors seedStream42 → 0 ≤ r.band b := by
  intro b r hr
  simp only [daily_factors, List.mem_map, List.mem_range] at hr
  obtain ⟨i, hi, rfl⟩ := hr
  have hsin := Real.neg_one_le_sin
      (2 * Real.pi * (pandasDayOfYear (simStart + i) : ℝ) / 365 - Real.pi / 2)
  have hz1 := (seedStream42_bounded i).1
  have hz2 := (seedStream42_bounded (numDays + i)).1
  have hz3 := (seedStream42_bounded (2 * numDays + i)).1
  cases b with
  | low =>
    simp only [DailyRecord.band, mkRecord, seasonal]
    nlinarith [hsin, hz1]
  | medium =>
    simp only [DailyRecord.band, mkRecord, seasonal, weekday_effect]
    rcases le_or_lt 5 (pdWeekday (simStart + i)) with hw | hw
    · rw [if_neg (not_lt.mpr hw)]
      nlinarith [hsin, hz2]
    · rw [if_pos hw]
      nlinarith [hsin, hz2]
  | high =>
    simp only [DailyRecord.band, mkRecord, seasonal, weekday_effect]
    rcases le_or_lt 5 (pdWeekday (simStart + i)) with hw | hw
    · rw [if_neg (not_lt.mpr hw)]
      nlinarith [hsin, hz3]
    · rw [if_pos hw]
      nlinarith [hsin, hz3]

theorem C3_bands_nonneg_witness :
    mkRecord seedStream42 0 ∈ daily_factors seedStream42 ∧
    0 ≤ (mkRecord seedStream42 0).band Band.low :=
  have hmem : mkRecord seedStream42 0 ∈ daily_factors seedStream42 :=
    List.mem_map.mpr ⟨0, List.mem_range.mpr (by rw [numDays_eq]; omega), rfl⟩
  ⟨hmem, C3_bands_nonneg Band.low _ hmem⟩

/-! ### Yearly average (claim C1) -/

/-- An in-range medium lookup yields the stored medium value. -/
theorem get_factor_at_medium (z : ℕ → ℝ) (i : ℕ) (hi : i < numDays) :
    get_factor_at z ⟨simStart + i, 0⟩ "medium" = (mkRecord z i).medium_confidence := by
  unfold get_factor_at
  rw [lookupRow_eq_some z i hi]
  rfl

/-- Claim C1 (with `get_yearly_factors` modelled from the spec, see its
docstring): the yearly average is the arithmetic mean of the selected
band over every record, for every confidence level; and for `"medium"`
it equals the mean of the point factors over every date of the
configured range. -/
theorem C1_yearly_average_is_band_mean :
    ∀ z : ℕ → ℝ,
      (∀ lvl : String, yearly_average_factor z lvl =
        ((daily_factors z).map (fun r => r.band (bandOfLevel lvl))).sum / numDays) ∧
      yearly_average_factor z "medium" =
        ((List.range numDays).map
          (fun i : ℕ => get_factor_at z ⟨simStart + (i : ℤ), 0⟩ "medium")).sum / numDays := by
  intro z
  have hmain : ∀ lvl : String, yearly_average_factor z lvl =
      ((daily_factors z).map (fun r => r.band (bandOfLevel lvl))).sum / numDays := by
    intro lvl
    unfold yearly_average_factor get_yearly_factors bandOfLevel
    split_ifs with h1 h2 <;>
      simp [daily_factors, DailyRecord.band, List.map_map, Function.comp_def]
  refine ⟨hmain, ?_⟩
  have hpt : ∀ i ∈ List.range numDays,
      get_factor_at z ⟨simStart + (i : ℤ), 0⟩ "medium" = (mkRecord z i).medium_confidence :=
    fun i hi => get_factor_at_medium z i (List.mem_range.mp hi)
  rw [List.map_congr_left hpt, hmain "medium"]
  have hcols : (daily_factors z).map (fun r => r.band (bandOfLevel "medium")) =
      (List.range numDays).map (fun i => (mkRecord z i).medium_confidence) := by
    unfold daily_factors
    rw [List.map_map]
    rfl
  rw [hcols]

theorem C1_yearly_average_is_band_mean_witness :
    yearly_average_factor constStream "medium" =
      ((List.range numDays).map
        (fun i : ℕ => get_factor_at constStream ⟨simStart + (i : ℤ), 0⟩ "medium")).sum
        / numDays :=
  (C1_yearly_average_is_band_mean constStream).2

/-! ### Coverage (claim C8) -/

/-- Claim C8: the series contains exactly one record per calendar date
of 2024-01-01 through 2024-12-31 inclusive (366 records in the leap
year): the `i`-th record carries the `i`-th date of the range, dates are
strictly ascending (hence contiguous by construction and duplicate-free),
and the dates present are exactly the midnights of the range, whose
endpoints are the civil dates 2024-01-01 and 2024-12-31. -/
theorem C8_one_record_per_date :
    ∀ z : ℕ → ℝ,
      (daily_factors z).length = numDays ∧
      numDays = 366 ∧
      simStart = daysFromCivil 2024 1 1 ∧
      simStart + ((numDays : ℤ) - 1) = daysFromCivil 2024 12 31 ∧
      (∀ i : ℕ, ∀ h : i < (daily_factors z).length,
        ((daily_factors z).get ⟨i, h⟩).date = ⟨simStart + i, 0⟩) ∧
      List.Pairwise (fun r s : DailyRecord => r.date.day < s.date.day) (daily_factors z) ∧
      ((daily_factors z).map (fun r => r.date)).Nodup ∧
      (∀ t : Timestamp, t ∈ (daily_factors z).map (fun r => r.date) ↔
        simStart ≤ t.day ∧ t.day < simStart + numDays ∧ t.sec = 0) := by
  intro z
  refine ⟨by simp [daily_factors], numDays_eq, rfl, by decide, ?_, ?_, ?_, mem_dates_iff z⟩
  · intro i h
    simp [daily_factors, List.get_eq_getElem, mkRecord_date]
  · unfold daily_factors
    rw [List.pairwise_map]
    refine (List.pairwise_lt_range numDays).imp ?_
    intro a b hab
    simp only [mkRecord_date]
    omega
  · unfold daily_factors
    rw [List.map_map]
    refine List.Nodup.map ?_ (List.nodup_range numDays)
    intro a b hab
    simp only [Function.comp_apply, mkRecord_date, Timestamp.mk.injEq] at hab
    omega

theorem C8_one_record_per_date_witness :
    (daily_factors constStream).length = numDays ∧
    (⟨simStart, 0⟩ : Timestamp) ∈ (daily_factors constStream).map (fun r => r.date) :=
  ⟨(C8_one_record_per_date constStream).1,
    ((C8_one_record_per_date constStream).2.2.2.2.2.2.2 ⟨simStart, 0⟩).mpr
      ⟨le_refl _, by show simStart < simStart + (numDays : ℤ); rw [numDays_eq]; omega, rfl⟩⟩

/-! ### The band formulas (claim C6) -/

/-- For every valid calendar date of 2024, the civil day number maps
back to year 2024 and the pandas day-of-year offset agrees with the
calendar day-of-year.  Checked by evaluation over all 12 × 31 candidate
component pairs. -/
theorem dayOfYear_agrees :
    ∀ m : ℕ, m < 13 → ∀ d : ℕ, d < 32 → isValidDate 2024 m d = true →
      yearOfDay (daysFromCivil 2024 m d) = 2024 ∧
      daysFromCivil 2024 m d - simStart + 1 = dayOfYearCivil 2024 m d := by decide

/-- Months have at most 31 days. -/
theorem daysInMonth_le_31 : ∀ m : ℕ, m < 13 → daysInMonth 2024 m ≤ 31 := by decide

/-- Claim C6: for every date of the generated range, the three band
values equal the stated formulas, with the seasonal sinusoid driven by
the calendar day-of-year and the weekday effect by the Mon-Fri test
(`pdWeekday < 5`, Python's Monday=0 convention). -/
theorem C6_band_formulas :
    ∀ (z : ℕ → ℝ) (m d i : ℕ), isValidDate 2024 m d = true →
      daysFromCivil 2024 m d = simStart + i →
      (mkRecord z i).low_confidence =
        0.85 * (1 + 0.15 * Real.sin (2 * Real.pi * (dayOfYearCivil 2024 m d : ℝ) / 365
          - Real.pi / 2) + 0.12 * z i) ∧
      (mkRecord z i).medium_confidence =
        0.80 * (1 + 0.8 * (0.15 * Real.sin (2 * Real.pi * (dayOfYearCivil 2024 m d : ℝ) / 365
          - Real.pi / 2)) + 0.5 * (if pdWeekday (daysFromCivil 2024 m d) < 5
            then (0.05 : ℝ) else -0.03) + 0.08 * z (numDays + i)) ∧
      (mkRecord z i).high_confidence =
        0.78 * (1 + 0.6 * (0.15 * Real.sin (2 * Real.pi * (dayOfYearCivil 2024 m d : ℝ) / 365
          - Real.pi / 2)) + 0.3 * (if pdWeekday (daysFromCivil 2024 m d) < 5
            then (0.05 : ℝ) else -0.03) + 0.05 * z (2 * numDays + i)) := by
  intro z m d i hv hd
  have hv' := hv
  simp only [isValidDate, Bool.and_eq_true, decide_eq_true_eq] at hv'
  have hm13 : m < 13 := by omega
  have hdm := daysInMonth_le_31 m hm13
  have hd32 : d < 32 := by omega
  obtain ⟨hy, hdoy⟩ := dayOfYear_agrees m hm13 d hd32 hv
  have hpdy : pandasDayOfYear (simStart + (i : ℤ)) = dayOfYearCivil 2024 m d := by
    rw [← hd]
    unfold pandasDayOfYear
    rw [hy]
    exact hdoy
  have hseas : seasonal i =
      0.15 * Real.sin (2 * Real.pi * (dayOfYearCivil 2024 m d : ℝ) / 365 - Real.pi / 2) := by
    unfold seasonal
    rw [hpdy]
  have hwd : weekday_effect i =
      (if pdWeekday (daysFromCivil 2024 m d) < 5 then (0.05 : ℝ) else -0.03) := by
    unfold weekday_effect
    rw [hd]
  refine ⟨?_, ?_, ?_⟩ <;> simp only [mkRecord, hseas, hwd]

theorem C6_band_formulas_witness :
    isValidDate 2024 6 15 = true ∧
    daysFromCivil 2024 6 15 = simStart + (166 : ℕ) ∧
    (mkRecord constStream 166).low_confidence =
      0.85 * (1 + 0.15 * Real.sin (2 * Real.pi * (dayOfYearCivil 2024 6 15 : ℝ) / 365
        - Real.pi / 2) + 0.12 * constStream 166) :=
  ⟨by decide, by decide,
    (C6_band_formulas constStream 6 15 166 (by decide) (by decide)).1⟩
